import Mathlib

/-!
# flex: checkpoint allocation, request routing and migration orchestration

A shallow embedding of `daemon.go`, `client.go` and `cmd/flex/move.go`.

Go strings are Lean strings.  Operations of the daemon on its surroundings
(the container runtime, the filesystem, rsync) are recorded as a list of
`Effect`s; whether such an operation succeeds is answered by an oracle
(`Runtime`).  On the client side every HTTP request is appended to a history
and answered by an oracle (`Net`) that may depend on that history.
-/

namespace Flex

/-! ## Pieces of the Go language and standard library used by the code -/

/-- Go conversion `string(i)` of an integer: the UTF-8 text of the code point
`i`, and U+FFFD when `i` is not a valid code point.  It is *not* the decimal
representation. -/
def stringOfInt (i : Int) : String :=
  if 0 ≤ i ∧ i.toNat.isValidChar then String.singleton (Char.ofNat i.toNat) else "�"

/-- Value of a decimal digit. -/
def digitVal (c : Char) : Option Nat :=
  if 48 ≤ c.toNat ∧ c.toNat ≤ 57 then some (c.toNat - 48) else none

/-- Base 10 value of a non-empty run of digits, `none` on any other character
(accumulator `acc`, `seen` records that one digit was read). -/
def parseDigits : List Char → Nat → Bool → Option Nat
  | [], acc, seen => if seen then some acc else none
  | c :: cs, acc, _ =>
    match digitVal c with
    | some d => parseDigits cs (10 * acc + d) true
    | none => none

/-- Width of the Go type `int` (64-bit platforms). -/
def intSize : Nat := 64

/-- The function `strconv.Atoi`: an optional sign `+` or `-`, then one or more
decimal digits, the value lying in the range of `int`.  `none` stands for a
non-nil error (syntax or range). -/
def Atoi (s : String) : Option Int :=
  match s.data with
  | '-' :: ds =>
    match parseDigits ds 0 false with
    | some n => if n ≤ 2 ^ (intSize - 1) then some (-(n : Int)) else none
    | none => none
  | '+' :: ds =>
    match parseDigits ds 0 false with
    | some n => if n < 2 ^ (intSize - 1) then some (n : Int) else none
    | none => none
  | ds =>
    match parseDigits ds 0 false with
    | some n => if n < 2 ^ (intSize - 1) then some (n : Int) else none
    | none => none

/-- Output of `fmt.Fprintf(w, format)` called without operands: `%%` prints a
percent sign, a lone `%` at the end prints `%!(NOVERB)`, any other verb prints
`%!c(MISSING)`.  Flags and widths are not interpreted; the formats the daemon
passes here are constants without a verb or the one-character `string(id)`. -/
def fprintfNoArgs : List Char → List Char
  | [] => []
  | ['%'] => "%!(NOVERB)".data
  | '%' :: '%' :: rest => '%' :: fprintfNoArgs rest
  | '%' :: c :: rest => '%' :: '!' :: c :: ("(MISSING)".data ++ fprintfNoArgs rest)
  | c :: rest => c :: fprintfNoArgs rest

/-- Pieces of a character list between occurrences of `sep`. -/
def splitOnChar (sep : Char) : List Char → List (List Char)
  | [] => [[]]
  | c :: cs =>
    if c = sep then [] :: splitOnChar sep cs
    else
      match splitOnChar sep cs with
      | [] => [[c]]
      | w :: ws => (c :: w) :: ws

/-- One step of `path.Clean` over the components kept so far (last one first). -/
def cleanStep (rooted : Bool) (stack : List (List Char)) (comp : List Char) : List (List Char) :=
  if comp = [] ∨ comp = ['.'] then stack
  else if comp = ['.', '.'] then
    match stack with
    | [] => if rooted then [] else [comp]
    | top :: rest => if top = ['.', '.'] then comp :: stack else rest
  else comp :: stack

/-- The function `filepath.Clean` (identical to `path.Clean` on Unix). -/
def Clean (p : String) : String :=
  match p.data with
  | [] => "."
  | c :: _ =>
    let rooted : Bool := c = '/'
    let comps := ((splitOnChar '/' p.data).foldl (cleanStep rooted) []).reverse
    let body := String.mk (List.intercalate ['/'] comps)
    if rooted then "/" ++ body else if body = "" then "." else body

/-- The function `filepath.Join`: the elements from the first non-empty one on,
joined by a slash and cleaned; the empty string when every element is empty. -/
def filepathJoin (elems : List String) : String :=
  match elems.dropWhile (fun e => e = "") with
  | [] => ""
  | es => Clean (String.intercalate "/" es)

/-- The function `strings.SplitN(s, sep, 2)` for a one-character separator:
`none` when `sep` does not occur, otherwise the text before and after its
first occurrence. -/
def cutFirst (sep : Char) : List Char → Option (List Char × List Char)
  | [] => none
  | c :: cs =>
    if c = sep then some ([], cs)
    else
      match cutFirst sep cs with
      | none => none
      | some (a, b) => some (c :: a, b)

/-- The call `strings.SplitN(s, ":", 2)`. -/
def SplitN2 (s : String) : List String :=
  match cutFirst ':' s.data with
  | none => [s]
  | some (a, b) => [String.mk a, String.mk b]

/-- A Go `map[string]string` and the decoded parameters of a request. -/
abbrev Form := List (String × String)

/-- Assignment `m[k] = v`. -/
def Form.set : Form → String → String → Form
  | [], k, v => [(k, v)]
  | (k0, v0) :: rest, k, v => if k0 = k then (k, v) :: rest else (k0, v0) :: Form.set rest k v

/-- The method `r.FormValue(key)`: the value sent for `key`, or the empty
string when the parameter is absent. -/
def FormValue (form : Form) (key : String) : String :=
  match form.find? (fun kv => kv.1 = key) with
  | some kv => kv.2
  | none => ""

/-! ## daemon.go -/

/-- The filesystem as far as the daemon looks at it: the paths that are
directories and the paths that are other files. -/
structure FS where
  dirs : List String
  files : List String

/-- What `os.Stat` reports. -/
inductive StatResult
  | notExist
  | isDir
  | isFile
  deriving DecidableEq, Repr

/-- The call `os.Stat(p)`.  The empty path names nothing (ENOENT). -/
def FS.Stat (fs : FS) (p : String) : StatResult :=
  if p = "" then .notExist
  else if p ∈ fs.dirs then .isDir
  else if p ∈ fs.files then .isFile
  else .notExist

/-- Outcomes of the operations the daemon delegates: `true` is a nil error. -/
structure Runtime where
  NewContainer : String → String → Bool
  MkdirAll : String → Bool
  Checkpoint : String → String → Bool → Bool → Bool
  Restore : String → String → Bool → Bool
  Run : List String → Bool

/-- Operations a handler performs on its surroundings, in program order. -/
inductive Effect
  | NewContainer (name lxcpath : String)
  | MkdirAll (path : String)
  | Checkpoint (name directory : String) (stop verbose : Bool)
  | Restore (name directory : String) (verbose : Bool)
  | Command (argv : List String)
  | SetConfigItem (name key value : String)
  | SaveConfigFile (name path : String)
  | Create (name template distro release arch : String)
  | Call (function name : String)
  deriving DecidableEq, Repr

/-- What a handler leaves behind: the response body, the operations performed
and the filesystem afterwards. -/
structure Response where
  body : String
  effects : List Effect
  fs : FS

/-- The daemon; `flexDir` is the value of `$FLEX_DIR` (empty when unset). -/
structure Daemon where
  flexDir : String

/-- The function `varPath`. -/
def varPath (d : Daemon) (path : List String) : String :=
  let varDir := if d.flexDir = "" then "/var/lib/flex" else d.flexDir
  filepathJoin (varDir :: path)

/-- The field `d.lxcpath`, set by `StartDaemon` to `varPath("lxc")`. -/
def Daemon.lxcpath (d : Daemon) : String := varPath d ["lxc"]

/-- Proper ancestors of a path: the text before each slash that is not the
first character. -/
def dirPrefixes (pre : List Char) : List Char → List String
  | [] => []
  | c :: cs =>
    (if c = '/' ∧ pre ≠ [] then [String.mk pre] else []) ++ dirPrefixes (pre ++ [c]) cs

/-- The call `os.MkdirAll(p, perm)`: fails when the oracle says so or when `p`
or an ancestor is a file that is not a directory; otherwise `p` and its
ancestors are directories afterwards. -/
def MkdirAll (rt : Runtime) (fs : FS) (p : String) : Option FS :=
  let chain := dirPrefixes [] p.data ++ [p]
  if rt.MkdirAll p = false ∨ chain.any (fun q => decide (q ∈ fs.files)) then none
  else some { fs with dirs := fs.dirs ++ chain.filter (fun q => decide (q ∉ fs.dirs)) }

/-- Handlers registered by `StartDaemon`. -/
inductive Handler
  | servePing
  | serveList
  | serveCreate
  | serveAttach
  | serveCheckpoint
  | serveRestore
  | serveSendContainer
  | byName (function : String)
  deriving DecidableEq, Repr

/-- The dispatch table built by `StartDaemon`, in registration order. -/
def muxTable : List (String × Handler) :=
  [("/ping", .servePing), ("/list", .serveList), ("/create", .serveCreate),
   ("/attach", .serveAttach), ("/checkpoint", .serveCheckpoint),
   ("/restore", .serveRestore), ("/sendContainer", .serveSendContainer),
   ("/start", .byName "start"), ("/stop", .byName "stop"),
   ("/reboot", .byName "reboot"), ("/destroy", .byName "destroy")]

/-- Routing of `http.ServeMux` for patterns without a trailing slash: the
handler whose pattern equals the request path. -/
def dispatch (path : String) : Option Handler :=
  match muxTable.find? (fun e => e.1 = path) with
  | some e => some e.2
  | none => none

/-- The function `makeCheckpointPath`. -/
def makeCheckpointPath (d : Daemon) (name id : String) : String :=
  varPath d ["checkpoints", name, id]

/-- The allocation loop of `serveCheckpoint`,
`for i := 0; i < 1000; i++ { ... }`, with `remaining = 1000 - i`.  As in the
source, the path handed to `os.Stat` is `path`, not `tmp`. -/
def scanIds (d : Daemon) (fs : FS) (name : String) : Nat → Nat → String → Int → String × Int
  | 0, _, path, id => (path, id)
  | remaining + 1, i, path, id =>
    let tmp := makeCheckpointPath d name (stringOfInt i)
    if fs.Stat path = .notExist then (tmp, (i : Int))
    else scanIds d fs name remaining (i + 1) path id

/-- The handler `Daemon.serveCheckpoint`. -/
def serveCheckpoint (d : Daemon) (rt : Runtime) (fs : FS) (form : Form) : Response :=
  let name := FormValue form "name"
  if name = "" then ⟨"failed parsing name", [], fs⟩
  else
    let e1 := [Effect.NewContainer name d.lxcpath]
    if rt.NewContainer name d.lxcpath = false then ⟨"failed getting container", e1, fs⟩
    else
      let root := varPath d ["checkpoints", name]
      let e2 := e1 ++ [Effect.MkdirAll root]
      match MkdirAll rt fs root with
      | none => ⟨"failed making checkpoint directory", e2, fs⟩
      | some fs1 =>
        let found := scanIds d fs1 name 1000 0 "" (-1)
        let path := found.1
        let id := found.2
        if id < 0 then ⟨"Too many checkpoints?", e2, fs1⟩
        else
          let e3 := e2 ++ [Effect.MkdirAll path]
          match MkdirAll rt fs1 path with
          | none => ⟨"Failed making checkpoint dir", e3, fs1⟩
          | some fs2 =>
            let stop : Bool := FormValue form "stop" = ""
            let verbose : Bool := FormValue form "verbose" = ""
            let e4 := e3 ++ [Effect.Checkpoint name path stop verbose]
            if rt.Checkpoint name path stop verbose = false then ⟨"Checkpoint failed", e4, fs2⟩
            else ⟨String.mk (fprintfNoArgs (stringOfInt id).data), e4, fs2⟩

/-- The handler `Daemon.serveRestore`. -/
def serveRestore (d : Daemon) (rt : Runtime) (fs : FS) (form : Form) : Response :=
  let name := FormValue form "name"
  if name = "" then ⟨"failed parsing name", [], fs⟩
  else
    let e1 := [Effect.NewContainer name d.lxcpath]
    if rt.NewContainer name d.lxcpath = false then ⟨"failed getting container", e1, fs⟩
    else
      let id := FormValue form "id"
      let path := makeCheckpointPath d name id
      match fs.Stat path with
      | .notExist => ⟨"checkpoint doesn't exist!", e1, fs⟩
      | .isFile => ⟨"checkpoint isn't a directory", e1, fs⟩
      | .isDir =>
        let verbose : Bool := FormValue form "verbose" = ""
        let e2 := e1 ++ [Effect.Restore name path verbose]
        if rt.Restore name path verbose = false then ⟨"restore failed!", e2, fs⟩
        else ⟨"restore success!", e2, fs⟩

/-- Argument vector of the subprocess started by `doRsync(remote, p)`. -/
def rsyncArgv (remote p : String) : List String :=
  let rsyncPath := p ++ "/"
  let remotePath := remote ++ ":" ++ rsyncPath
  ["rsync", "-rltzha", "--devices", "--rsync-path=\"sudo rsync\"", rsyncPath, remotePath]

/-- The handler `Daemon.serveSendContainer`. -/
def serveSendContainer (d : Daemon) (rt : Runtime) (fs : FS) (form : Form) : Response :=
  let name := FormValue form "name"
  if name = "" then ⟨"no name?", [], fs⟩
  else
    let checkpoint := FormValue form "checkpoint"
    let remote := FormValue form "remote"
    if remote = "" then ⟨"error parsing remote", [], fs⟩
    else
      let sendContainer (done : List Effect) : Response :=
        let argv := rsyncArgv remote (filepathJoin [d.lxcpath, name])
        if rt.Run argv = false then ⟨"rsync of container failed!", done ++ [Effect.Command argv], fs⟩
        else ⟨"send successful!", done ++ [Effect.Command argv], fs⟩
      if checkpoint ≠ "" then
        let id := FormValue form "id"
        let path := makeCheckpointPath d name id
        match fs.Stat path with
        | .notExist => ⟨"checkpoint doesn't exist!", [], fs⟩
        | .isFile => ⟨"checkpoint isn't a directory", [], fs⟩
        | .isDir =>
          let argv := rsyncArgv remote path
          if rt.Run argv = false then ⟨"rsync of checkpoint failed!", [Effect.Command argv], fs⟩
          else sendContainer [Effect.Command argv]
      else sendContainer []

/-- The type `idmap` (declared in idmap.go) with the fields `serveCreate`
reads. -/
structure idmap where
  uidmin : Nat
  uidrange : Nat
  gidmin : Nat
  gidrange : Nat

/-- Outcomes of the container operations of `serveCreate` and of the by-name
handlers: `true` is a nil error. -/
structure Lxc where
  SetConfigItem : String → String → String → Bool
  Create : String → String → String → String → Bool
  Call : String → String → Bool

/-- The handler `Daemon.serveCreate`; `id_map` is the field `d.id_map`.  The
body is everything written to `w`, in order. -/
def serveCreate (d : Daemon) (rt : Runtime) (lxc : Lxc) (id_map : Option idmap) (fs : FS)
    (form : Form) : Response :=
  let name := FormValue form "name"
  if name = "" then ⟨"failed parsing name", [], fs⟩
  else
    let distro := FormValue form "distro"
    if distro = "" then ⟨"failed parsing distro", [], fs⟩
    else
      let release := FormValue form "release"
      if release = "" then ⟨"failed parsing release", [], fs⟩
      else
        let arch := FormValue form "arch"
        if arch = "" then ⟨"failed parsing arch", [], fs⟩
        else
          let e1 := [Effect.NewContainer name d.lxcpath]
          if rt.NewContainer name d.lxcpath = false then ⟨"", e1, fs⟩
          else
            let create (written : String) (done : List Effect) : Response :=
              let e := done ++ [Effect.Create name "download" distro release arch]
              if lxc.Create name distro release arch = false then ⟨written ++ "fail!", e, fs⟩
              else ⟨written ++ "success!", e, fs⟩
            match id_map with
            | none => create "" e1
            | some m =>
              let e2 := e1 ++ [Effect.SetConfigItem name "lxc.id_map" ""]
              let w1 :=
                if lxc.SetConfigItem name "lxc.id_map" "" = false then
                  "Failed to clear id mapping, continuing"
                else ""
              let uidstr := "u 0 " ++ toString m.uidmin ++ " " ++ toString m.uidrange ++ "\n"
              let e3 := e2 ++ [Effect.SetConfigItem name "lxc.id_map" uidstr]
              if lxc.SetConfigItem name "lxc.id_map" uidstr = false then
                ⟨w1 ++ "Failed to set uid mapping", e3, fs⟩
              else
                let gidstr := "g 0 " ++ toString m.gidmin ++ " " ++ toString m.gidrange ++ "\n"
                let e4 := e3 ++ [Effect.SetConfigItem name "lxc.id_map" gidstr]
                if lxc.SetConfigItem name "lxc.id_map" gidstr = false then
                  ⟨w1 ++ "Failed to set gid mapping", e4, fs⟩
                else create w1 (e4 ++ [Effect.SaveConfigFile name "/tmp/c"])

/-- The handler built by `buildByNameServe(function, f, d)`; the operation `f`
is identified by `function`. -/
def buildByNameServe (function : String) (d : Daemon) (rt : Runtime) (lxc : Lxc) (fs : FS)
    (form : Form) : Response :=
  let name := FormValue form "name"
  if name = "" then ⟨"failed parsing name", [], fs⟩
  else
    let e1 := [Effect.NewContainer name d.lxcpath]
    if rt.NewContainer name d.lxcpath = false then ⟨"failed getting container", e1, fs⟩
    else
      let e2 := e1 ++ [Effect.Call function name]
      if lxc.Call function name = false then ⟨"operation failed", e2, fs⟩
      else ⟨"", e2, fs⟩

/-- Outcome of the first `conn.Read(b)` on the accepted connection, `b` being a
buffer of 100 bytes: an error, or the bytes `b[:n]` that were read. -/
inductive ReadResult
  | error (e : String)
  | data (bytes : List UInt8)
  deriving DecidableEq

/-- Outcomes of the operations of one attach session: `true` is a nil error. -/
structure AttachEnv where
  accept : Bool
  read : ReadResult
  ptyOpen : Bool
  runCommand : Bool

/-- Operations of the attach goroutine, in program order (deferred closes at
the point where they run). -/
inductive SessionEvent
  | Accept
  | ListenerClose
  | Read
  | ConnClose
  | NewContainer (name lxcpath : String)
  | PtyOpen
  | CopyConnToPty
  | CopyPtyToConn
  | RunCommand (name : String) (argv : List String)
  | TtyClose
  | PtyClose
  deriving DecidableEq, Repr

/-- The goroutine started by `serveAttach`; `secret` is the byte content of
the secret string. -/
def attachSession (d : Daemon) (name command : String) (secret : List UInt8)
    (env : AttachEnv) : List SessionEvent :=
  if env.accept = false then [.Accept, .ListenerClose]
  else
    let pre : List SessionEvent := [.Accept, .ListenerClose, .Read]
    match env.read with
    | .error _ => pre ++ [.ConnClose]
    | .data b =>
      let n := b.length
      if n ≠ secret.length then pre ++ [.ConnClose]
      else if b.take n ≠ secret then pre ++ [.ConnClose]
      else
        let opened := pre ++ [.NewContainer name d.lxcpath, .PtyOpen]
        if env.ptyOpen = false then opened ++ [.ConnClose]
        else
          opened ++ [.CopyConnToPty, .CopyPtyToConn, .RunCommand name [command],
            .TtyClose, .PtyClose, .ConnClose]

/-- Response body of `serveAttach` and the operations of its goroutine. -/
structure AttachOutcome where
  body : String
  session : List SessionEvent

/-- The handler `Daemon.serveAttach`; `listen` is the address of the listener
opened by `net.Listen("tcp4", ":0")`, `none` when listening fails. -/
def serveAttach (d : Daemon) (listen : Option String) (form : Form) (env : AttachEnv) :
    AttachOutcome :=
  let name := FormValue form "name"
  if name = "" then ⟨"failed parsing name", []⟩
  else
    let command := FormValue form "command"
    if command = "" then ⟨"failed parsing command", []⟩
    else
      let secret := FormValue form "secret"
      if secret = "" then ⟨"failed parsing secret", []⟩
      else
        match listen with
        | none => ⟨"failed listening", []⟩
        | some addr => ⟨addr, attachSession d name command secret.toUTF8.data.toList env⟩

/-! ## client.go -/

/-- The type `RemoteConfig` (declared in config.go; used as
`flex.RemoteConfig{url}` and `rc.Addr`). -/
structure RemoteConfig where
  Addr : String
  deriving DecidableEq, Repr

/-- The type `Config` (declared in config.go) with the fields the code reads;
`Remotes` is a `map[string]RemoteConfig`. -/
structure Config where
  DefaultRemote : String
  Remotes : List (String × RemoteConfig)
  ListenAddr : String

/-- Map lookup `config.Remotes[name]`. -/
def Config.remote (config : Config) (name : String) : Option RemoteConfig :=
  match config.Remotes.find? (fun e => e.1 = name) with
  | some e => some e.2
  | none => none

/-- How a client reaches its daemon: the default HTTP transport or
`unixTransport`. -/
inductive Transport
  | tcp
  | unixSocket
  deriving DecidableEq, Repr

/-- The type `Client`. -/
structure Client where
  config : Config
  Remote : Option RemoteConfig
  transport : Transport
  baseURL : String

/-- One `http.Get`.  Its URL is `baseURL + path.Join(base + "?" + query)`; the
query `vs.Encode()` is kept decoded as `args` (`FormValue` on the daemon reads
back what `vs.Set` stored), and `path.Join` leaves its argument unchanged, the
encoded query containing no slash. -/
structure Request where
  transport : Transport
  baseURL : String
  base : String
  args : Form
  deriving DecidableEq, Repr

/-- The URL of a request up to its question mark. -/
def Request.url (r : Request) : String := r.baseURL ++ r.base

/-- Errors returned on the client side. -/
inductive GoError
  | errArgs
  | message (s : String)
  | unknownRemote (quoted : String)
  | unexpectedPing (quoted : String)
  deriving DecidableEq, Repr

/-- The network: the answer to a request, given the requests sent before it. -/
abbrev Net := List Request → Request → Except GoError String

/-- The method `Client.getstr`, threading the history of requests. -/
def Client.getstr (c : Client) (net : Net) (hist : List Request) (base : String)
    (args : Form) : Except GoError String × List Request :=
  let rq : Request := ⟨c.transport, c.baseURL, base, args⟩
  (net hist rq, hist ++ [rq])

/-- The method `Client.Ping`: `none` is a nil error. -/
def Client.Ping (c : Client) (net : Net) (hist : List Request) :
    Option GoError × List Request :=
  match c.getstr net hist "/ping" [] with
  | (.error e, h) => (some e, h)
  | (.ok data, h) => if data ≠ "pong" then (some (.unexpectedPing data), h) else (none, h)

/-- The split of a reference at the start of `NewClient`: remote name and
container name. -/
def splitRef (config : Config) (raw : String) : String × String :=
  let result := SplitN2 raw
  if result.length = 1 then (config.DefaultRemote, result.getD 0 "")
  else (result.getD 0 "", result.getD 1 "")

/-- The choice of transport in `NewClient`.  The error names
`config.DefaultRemote`, as in the source. -/
def resolveRemote (config : Config) (remote : String) : Except GoError Client :=
  if remote = "" ∨ remote = "local" then
    .ok ⟨config, none, .unixSocket, "http://unix.socket"⟩
  else
    match config.remote remote with
    | some r => .ok ⟨config, some r, .tcp, "http://" ++ r.Addr⟩
    | none => .error (.unknownRemote config.DefaultRemote)

/-- The function `NewClient`. -/
def NewClient (config : Config) (raw : String) (net : Net) (hist : List Request) :
    Except GoError (Client × String) × List Request :=
  let ref := splitRef config raw
  match resolveRemote config ref.1 with
  | .error e => (.error e, hist)
  | .ok c =>
    match c.Ping net hist with
    | (some e, h) => (.error e, h)
    | (none, h) => (.ok (c, ref.2), h)

/-- The method `Client.Checkpoint`. -/
def Client.Checkpoint (c : Client) (net : Net) (hist : List Request) (name : String)
    (stop verbose : Bool) : Except GoError String × List Request :=
  let parms : Form := [("name", name)]
  let parms := if stop then parms.set "stop" "true" else parms
  let parms := if verbose then parms.set "verbose" "verbose" else parms
  c.getstr net hist "/checkpoint" parms

/-- The method `Client.Restore`. -/
def Client.Restore (c : Client) (net : Net) (hist : List Request) (name : String)
    (id : Int) (verbose : Bool) : Except GoError String × List Request :=
  let parms : Form := [("name", name), ("id", stringOfInt id)]
  let parms := if verbose then parms.set "verbose" "verbose" else parms
  c.getstr net hist "/checkpoint" parms

/-- The method `Client.SendContainer`. -/
def Client.SendContainer (c : Client) (net : Net) (hist : List Request)
    (remote : RemoteConfig) (name : String) (id : Int) :
    Except GoError String × List Request :=
  let host := remote.Addr
  let params : Form := [("name", name), ("remote", host)]
  let params := if id ≥ 0 then params.set "id" (stringOfInt id) else params
  c.getstr net hist "sendContainer" params

/-- Text of `l` after the leading `pre`, `none` when `l` does not start with it. -/
def dropLeading : List Char → List Char → Option (List Char)
  | [], l => some l
  | _ :: _, [] => none
  | p :: ps, c :: cs => if p = c then dropLeading ps cs else none

/-- Text after the last colon of a host, `none` when it has no colon. -/
def portOf (host : List Char) : Option (List Char) :=
  match splitOnChar ':' host with
  | [] => none
  | [_] => none
  | pieces => pieces.getLast?

/-- The path under which a daemon receives a request for `url`: the text from
the first slash after `http://host`, or `/` when there is none.  `none` when
the URL is not an http URL or the port of its host is not a number (the
request is then not delivered). -/
def urlPath (url : String) : Option String :=
  match dropLeading "http://".data url.data with
  | none => none
  | some rest =>
    let host := rest.takeWhile (fun c => c ≠ '/')
    let path := rest.dropWhile (fun c => c ≠ '/')
    match portOf host with
    | some port =>
      if port.all (fun c => (digitVal c).isSome) then
        some (if path = [] then "/" else String.mk path)
      else none
    | none => some (if path = [] then "/" else String.mk path)

/-- The handler a daemon runs for a request, if it is delivered. -/
def route (r : Request) : Option Handler :=
  match urlPath r.url with
  | some path => dispatch path
  | none => none

/-- The function `cleanPath` of net/http: the path made absolute and cleaned,
a trailing slash kept. -/
def cleanPath (p : String) : String :=
  if p = "" then "/"
  else
    let q := if p.data.head? = some '/' then p else "/" ++ p
    let np := Clean q
    if q.data.getLast? = some '/' ∧ np ≠ "/" then np ++ "/" else np

/-- The handler that in the end serves the GET of a request: `http.ServeMux`
answers a path that is not clean with a redirect to the cleaned path, which
`http.Get` follows, and then routes by the pattern equal to the path. -/
def served (r : Request) : Option Handler :=
  match urlPath r.url with
  | some path => dispatch (cleanPath path)
  | none => none

/-! ## cmd/flex/move.go -/

/-- The type `moveCmd`. -/
structure moveCmd where
  verbose : Bool
  stop : Bool

/-- Defaults registered by `moveCmd.flags`. -/
def moveCmd.flags : moveCmd := ⟨false, true⟩

/-- Result of `moveCmd.run`: the error returned (`none` is nil), the requests
sent and the lines printed. -/
structure RunResult where
  err : Option GoError
  sent : List Request
  printed : List String

/-- The method `moveCmd.run`; `loadConfig` is the outcome of `flex.LoadConfig()`. -/
def moveCmd.run (c : moveCmd) (loadConfig : Except GoError Config) (net : Net)
    (args : List String) : RunResult :=
  match args with
  | source :: target :: _ =>
    match loadConfig with
    | .error e => ⟨some e, [], []⟩
    | .ok config =>
      match NewClient config source net [] with
      | (.error e, h1) => ⟨some e, h1, []⟩
      | (.ok (sourced, name), h1) =>
        match NewClient config target net h1 with
        | (.error e, h2) => ⟨some e, h2, []⟩
        | (.ok (targetd, _), h2) =>
          match sourced.Remote, targetd.Remote with
          | some _, some targetRemote =>
            match sourced.Checkpoint net h2 name c.stop c.verbose with
            | (.error e, h3) => ⟨some e, h3, []⟩
            | (.ok result, h3) =>
              match Atoi result with
              | none => ⟨some (.message result), h3, []⟩
              | some id =>
                match sourced.SendContainer net h3 targetRemote name id with
                | (.error e, h4) => ⟨some e, h4, []⟩
                | (.ok sendResult, h4) =>
                  match targetd.Restore net h4 name id c.verbose with
                  | (.error e, h5) => ⟨some e, h5, [sendResult]⟩
                  | (.ok restoreResult, h5) => ⟨none, h5, [sendResult, restoreResult]⟩
          | _, _ => ⟨some (.message "checkpointing to local remote not supported"), h2, []⟩
  | _ => ⟨some .errArgs, [], []⟩

/-! ## Concrete surroundings used to evaluate the code -/

/-- An oracle under which every delegated operation succeeds. -/
def allSucceed : Runtime :=
  ⟨fun _ _ => true, fun _ => true, fun _ _ _ _ => true, fun _ _ _ => true, fun _ => true⟩

/-- An oracle under which every subprocess fails and all else succeeds. -/
def rsyncFails : Runtime :=
  ⟨fun _ _ => true, fun _ => true, fun _ _ _ _ => true, fun _ _ _ => true, fun _ => false⟩

/-- A daemon started without `$FLEX_DIR`. -/
def defaultDaemon : Daemon := ⟨""⟩

/-- A configuration with two remotes and no default remote. -/
def twoRemotes : Config :=
  ⟨"", [("src", ⟨"10.0.0.1:8443"⟩), ("dst", ⟨"10.0.0.2:8443"⟩)], ""⟩

/-- A client of the remote `src` of `twoRemotes`. -/
def srcClient : Client :=
  ⟨twoRemotes, some ⟨"10.0.0.1:8443"⟩, .tcp, "http://10.0.0.1:8443"⟩

/-- A client of the remote `dst` of `twoRemotes`. -/
def dstClient : Client :=
  ⟨twoRemotes, some ⟨"10.0.0.2:8443"⟩, .tcp, "http://10.0.0.2:8443"⟩

/-- A network on which nothing answers. -/
def deadNet : Net := fun _ _ => .error (.message "connection refused")

/-- A network whose daemons answer pings with `pong`, a checkpoint request
(no `id` parameter) with `checkpointBody`, a sendContainer request with
`sendBody` and a restore request with `restore success!`. -/
def scriptedNet (checkpointBody sendBody : String) : Net := fun _ r =>
  if r.base = "/ping" then .ok "pong"
  else if r.base = "sendContainer" then .ok sendBody
  else if FormValue r.args "id" = "" then .ok checkpointBody
  else .ok "restore success!"

/-- A configuration whose remotes table has the key `local`. -/
def localNamed : Config := ⟨"", [("local", ⟨"10.0.0.5:8443"⟩)], ""⟩

/-- A configuration whose default remote `myremote` is at `10.0.0.5:8443`. -/
def oneRemote : Config := ⟨"myremote", [("myremote", ⟨"10.0.0.5:8443"⟩)], ""⟩

/-- Following the words of the specification: `s` is the decimal
representation of a non-negative integer, a non-empty run of decimal digits. -/
def isDecimalNat (s : String) : Bool :=
  !s.data.isEmpty && s.data.all (fun c => (digitVal c).isSome)

/-- Container operations that all succeed. -/
def lxcSucceeds : Lxc := ⟨fun _ _ _ => true, fun _ _ _ _ => true, fun _ _ => true⟩

/-- A filesystem in which the checkpoint directories of all ids 0..999 of the
container `web1` exist. -/
def fullTree : FS :=
  ⟨(List.range 1000).map
      (fun (i : Nat) => makeCheckpointPath defaultDaemon "web1" (stringOfInt i)), []⟩

/-- Following the words of the specification: the first of the required
parameters `fields`, in that order, that is missing or empty in the request. -/
def firstMissing (fields : List String) (form : Form) : Option String :=
  fields.find? (fun f => FormValue form f = "")

/-- A handler refuses a request: it answers `body`, performs no operation and
leaves the filesystem `fs` as it was. -/
def Response.refuses (r : Response) (fs : FS) (body : String) : Prop :=
  r.body = body ∧ r.effects = [] ∧ r.fs = fs

/-- A configuration whose remote addresses end in a slash, so that the base
`sendContainer` of `Client.SendContainer` forms the path `/sendContainer`. -/
def slashRemotes : Config :=
  ⟨"", [("src", ⟨"10.0.0.1:8443/"⟩), ("dst", ⟨"10.0.0.2:8443/"⟩)], ""⟩

/-- A network that answers only the requests that are served by a handler: a
ping with `pong`, a request served by `serveCheckpoint` with the decimal id
`0`, and a sendContainer request with the body of `serveSendContainer` on a
daemon whose rsync fails. -/
def servedNet : Net := fun _ r =>
  match served r with
  | some Handler.servePing => .ok "pong"
  | some Handler.serveCheckpoint => .ok "0"
  | some Handler.serveSendContainer =>
    .ok (serveSendContainer defaultDaemon rsyncFails ⟨[], []⟩ r.args).body
  | _ => .error (.message "no handler")

/-- The request last sent by a client call. -/
def lastSent (r : Except GoError String × List Request) : Option Request := r.2.getLast?

/-! ## Checkpoint allocation and the checkpoint response -/

/-- C1 (defect in the code): the allocation loop of `serveCheckpoint` stats the
variable `path`, which is still empty, instead of the candidate `tmp`; so for
every filesystem it stops at `i = 0` and allocates id 0.  With the directory of
id 0 already present for container `web1`, the handler checkpoints into that
same directory again and creates no directory for id 1. -/
theorem serveCheckpoint_allocates_id_zero_again :
    (∀ (d : Daemon) (fs : FS) (name : String),
        scanIds d fs name 1000 0 "" (-1) = (makeCheckpointPath d name (stringOfInt 0), 0)) ∧
    (let fs0 : FS :=
       ⟨["/var/lib/flex/checkpoints/web1", "/var/lib/flex/checkpoints/web1/\x00"], []⟩
     let out := serveCheckpoint defaultDaemon allSucceed fs0 [("name", "web1")]
     makeCheckpointPath defaultDaemon "web1" (stringOfInt 0) ∈ fs0.dirs ∧
     Effect.Checkpoint "web1" (makeCheckpointPath defaultDaemon "web1" (stringOfInt 0)) true true
       ∈ out.effects ∧
     Effect.MkdirAll (makeCheckpointPath defaultDaemon "web1" (stringOfInt 1)) ∉ out.effects ∧
     makeCheckpointPath defaultDaemon "web1" (stringOfInt 1) ∉ out.fs.dirs) := by
  refine ⟨fun d fs name => rfl, ?_⟩
  decide

/-- C2 (defect in the code): after a successful runtime checkpoint for id 0 the
response body of `serveCheckpoint` is `string(0)`, the one-character text
U+0000, not the decimal text `0`, and `strconv.Atoi` rejects it. -/
theorem serveCheckpoint_body_not_decimal :
    (serveCheckpoint defaultDaemon allSucceed ⟨[], []⟩ [("name", "web1")]).effects.getLast?
      = some (Effect.Checkpoint "web1"
          (makeCheckpointPath defaultDaemon "web1" (stringOfInt 0)) true true) ∧
    (serveCheckpoint defaultDaemon allSucceed ⟨[], []⟩ [("name", "web1")]).body = "\x00" ∧
    (serveCheckpoint defaultDaemon allSucceed ⟨[], []⟩ [("name", "web1")]).body ≠ "0" ∧
    Atoi (serveCheckpoint defaultDaemon allSucceed ⟨[], []⟩ [("name", "web1")]).body = none := by
  decide

/-! ## Routing of the client's requests -/

/-- C3 (defect in the code): every request built by `Client.Restore` is a GET
to the path `/checkpoint`, which the dispatch table maps to `serveCheckpoint`,
not `serveRestore`; and its `id` parameter is `string(id)` (U+0001 for id 1),
not the decimal text. -/
theorem Restore_request_reaches_serveCheckpoint :
    (∀ (c : Client) (net : Net) (hist : List Request) (name : String) (id : Int)
        (verbose : Bool),
      (lastSent (c.Restore net hist name id verbose)).map Request.base = some "/checkpoint") ∧
    dispatch "/checkpoint" = some Handler.serveCheckpoint ∧
    (lastSent (dstClient.Restore deadNet [] "web1" 1 false)).bind route
      = some Handler.serveCheckpoint ∧
    (lastSent (dstClient.Restore deadNet [] "web1" 1 false)).map Request.args
      = some [("name", "web1"), ("id", "\x01")] := by
  refine ⟨fun c net hist name id verbose => ?_, by decide, by decide, by decide⟩
  simp [lastSent, Client.Restore, Client.getstr]

/-- C4 (defect in the code): every request built by `Client.SendContainer` has
the base `sendContainer` without a leading slash and carries no `checkpoint`
parameter.  For the source `10.0.0.1:8443` its URL is
`http://10.0.0.1:8443sendContainer`, which reaches no handler; and
`serveSendContainer`, given the parameters of that request and an existing
checkpoint directory, runs rsync on the container directory only. -/
theorem SendContainer_request_skips_checkpoint :
    (∀ (c : Client) (net : Net) (hist : List Request) (remote : RemoteConfig)
        (name : String) (id : Int),
      (lastSent (c.SendContainer net hist remote name id)).map
        (fun r => (r.base, FormValue r.args "checkpoint")) = some ("sendContainer", "")) ∧
    (let sent := lastSent (srcClient.SendContainer deadNet [] ⟨"10.0.0.2:8443"⟩ "web1" 0)
     let fs0 : FS := ⟨[makeCheckpointPath defaultDaemon "web1" (stringOfInt 0)], []⟩
     sent.map Request.url = some "http://10.0.0.1:8443sendContainer" ∧
     sent.bind route = none ∧
     sent.map (fun r => (serveSendContainer defaultDaemon allSucceed fs0 r.args).effects)
       = some [Effect.Command (rsyncArgv "10.0.0.2:8443" "/var/lib/flex/lxc/web1")]) := by
  refine ⟨fun c net hist remote name id => ?_, by decide⟩
  simp only [lastSent, Client.SendContainer, Client.getstr]
  split <;> simp [Form.set, FormValue, List.find?]

/-! ## The migration orchestration -/

/-- C5 (defect in the code): `moveCmd.run` looks only at the transport error
of `SendContainer`.  On every network, once the checkpoint id is parsed and the
sendContainer request is answered with any body at all (a failure text of
`serveSendContainer` included), it prints the body and sends the restore
request, and returns nil when that is answered.  With remotes whose addresses
end in a slash the sendContainer request is served by `serveSendContainer`,
which on a failed rsync answers `rsync of container failed!`, and `run` goes on
to the restore request and returns nil. -/
theorem run_continues_after_failed_transfer :
    (∀ (c : moveCmd) (config : Config) (net : Net) (source target : String)
        (rest : List String) (sourced targetd : Client) (name tname : String)
        (h1 h2 : List Request) (sr tr : RemoteConfig) (s body : String) (id : Int),
      NewClient config source net [] = (.ok (sourced, name), h1) →
      NewClient config target net h1 = (.ok (targetd, tname), h2) →
      sourced.Remote = some sr → targetd.Remote = some tr →
      (sourced.Checkpoint net h2 name c.stop c.verbose).1 = .ok s →
      Atoi s = some id →
      (sourced.SendContainer net (sourced.Checkpoint net h2 name c.stop c.verbose).2
          tr name id).1 = .ok body →
      (c.run (.ok config) net (source :: target :: rest)).sent
        = (targetd.Restore net
            (sourced.SendContainer net (sourced.Checkpoint net h2 name c.stop c.verbose).2
              tr name id).2 name id c.verbose).2 ∧
      (c.run (.ok config) net (source :: target :: rest)).printed.head? = some body ∧
      (∀ restored : String,
        (targetd.Restore net
            (sourced.SendContainer net (sourced.Checkpoint net h2 name c.stop c.verbose).2
              tr name id).2 name id c.verbose).1 = .ok restored →
        (c.run (.ok config) net (source :: target :: rest)).err = none)) ∧
    (lastSent (Client.SendContainer ⟨slashRemotes, some ⟨"10.0.0.1:8443/"⟩, .tcp,
        "http://10.0.0.1:8443/"⟩ deadNet [] ⟨"10.0.0.2:8443/"⟩ "web1" 0)).bind served
      = some Handler.serveSendContainer ∧
    (serveSendContainer defaultDaemon rsyncFails ⟨[], []⟩
        [("name", "web1"), ("remote", "10.0.0.2:8443/"), ("id", "\x00")]).body
      = "rsync of container failed!" ∧
    (moveCmd.run moveCmd.flags (.ok slashRemotes) servedNet ["src:web1", "dst:web1"]).err
      = none ∧
    (moveCmd.run moveCmd.flags (.ok slashRemotes) servedNet ["src:web1", "dst:web1"]).printed
      = ["rsync of container failed!", "0"] ∧
    (moveCmd.run moveCmd.flags (.ok slashRemotes) servedNet ["src:web1", "dst:web1"]).sent.map
        Request.url
      = ["http://10.0.0.1:8443//ping", "http://10.0.0.2:8443//ping",
         "http://10.0.0.1:8443//checkpoint", "http://10.0.0.1:8443/sendContainer",
         "http://10.0.0.2:8443//checkpoint"] := by
  refine ⟨?_, by decide, by decide, by decide, by decide, by decide⟩
  intro c config net source target rest sourced targetd name tname h1 h2 sr tr s body id
    hsrc htgt hsr htr hck hid hsend
  rcases hC : sourced.Checkpoint net h2 name c.stop c.verbose with ⟨ck, hist3⟩
  rw [hC] at hck hsend
  simp only at hck hsend
  subst hck
  rcases hS : sourced.SendContainer net hist3 tr name id with ⟨sc, hist4⟩
  rw [hS] at hsend
  simp only at hsend
  subst hsend
  rcases hR : targetd.Restore net hist4 name id c.verbose with ⟨_ | restoreResult, hist5⟩
  · simp [moveCmd.run, hsrc, htgt, hsr, htr, hC, hid, hS, hR]
  · simp [moveCmd.run, hsrc, htgt, hsr, htr, hC, hid, hS, hR]

/-- C9 (defect in the code): `serveCheckpoint` computes each flag as
"the parameter is empty", while `Client.Checkpoint` sends the parameter exactly
when the flag is set; so for every `stop` and `verbose` the runtime checkpoint
is invoked with both flags negated (`stop = true` arrives as `false`). -/
theorem serveCheckpoint_inverts_flags :
    ∀ stop verbose : Bool,
      (lastSent (srcClient.Checkpoint deadNet [] "web1" stop verbose)).map
        (fun r => (serveCheckpoint defaultDaemon allSucceed ⟨[], []⟩ r.args).effects.getLast?)
      = some (some (Effect.Checkpoint "web1"
          (makeCheckpointPath defaultDaemon "web1" (stringOfInt 0)) (!stop) (!verbose))) := by
  decide

/-! ## The attach handshake -/

/-- C6: for a well-formed attach request whose listener accepted a connection,
the session opens the container and the pseudo-terminal if and only if the
first read succeeded and returned exactly the bytes of the secret; in every
other case it only closes the connection (no container runtime call); and the
response body is the listen address whatever the session does. -/
theorem serveAttach_checks_secret (d : Daemon) (addr : String) (form : Form) (env : AttachEnv)
    (hname : FormValue form "name" ≠ "") (hcommand : FormValue form "command" ≠ "")
    (hsecret : FormValue form "secret" ≠ "") (haccept : env.accept = true) :
    let secret := (FormValue form "secret").toUTF8.data.toList
    let out := serveAttach d (some addr) form env
    ((SessionEvent.NewContainer (FormValue form "name") d.lxcpath ∈ out.session ∧
        SessionEvent.PtyOpen ∈ out.session) ↔ env.read = ReadResult.data secret) ∧
    (env.read ≠ ReadResult.data secret →
      out.session = [.Accept, .ListenerClose, .Read, .ConnClose]) ∧
    out.body = addr ∧
    (∀ env2 : AttachEnv, (serveAttach d (some addr) form env2).body = out.body) := by
  intro secret out
  have hbody : ∀ e : AttachEnv, (serveAttach d (some addr) form e).body = addr := by
    intro e
    simp [serveAttach, hname, hcommand, hsecret]
  have hsess : out.session
      = attachSession d (FormValue form "name") (FormValue form "command") secret env := by
    simp [out, secret, serveAttach, hname, hcommand, hsecret]
  refine ⟨?_, ?_, hbody env, fun e => by rw [hbody e]; exact (hbody env).symm⟩
  · rw [hsess]
    cases hr : env.read with
    | error e => simp [attachSession, haccept, hr]
    | data b =>
      by_cases hb : b = secret
      · subst hb
        by_cases hp : env.ptyOpen = false <;> simp [attachSession, haccept, hr, hp]
      · have : ReadResult.data b ≠ ReadResult.data secret := by
          intro h; exact hb (ReadResult.data.inj h)
        by_cases hl : b.length = secret.length
        · have ht : List.take secret.length b = b := by rw [← hl]; exact List.take_length b
          simp [attachSession, haccept, hr, hl, hb, this, ht]
        · simp [attachSession, haccept, hr, hl, this]
  · intro hne
    rw [hsess]
    cases hr : env.read with
    | error e => simp [attachSession, haccept, hr]
    | data b =>
      have hb : b ≠ secret := by
        intro h; apply hne; rw [hr, h]
      by_cases hl : b.length = secret.length
      · have ht : List.take secret.length b = b := by rw [← hl]; exact List.take_length b
        simp [attachSession, haccept, hr, hl, hb, ht]
      · simp [attachSession, haccept, hr, hl]

/-- Witness for C6: the secret `s3` received as the bytes 0x73 0x33. -/
theorem serveAttach_checks_secret_witness :
    let env : AttachEnv := ⟨true, .data [0x73, 0x33], true, true⟩
    let form : Form := [("name", "web1"), ("command", "/bin/sh"), ("secret", "s3")]
    let out := serveAttach defaultDaemon (some "0.0.0.0:40123") form env
    env.read = ReadResult.data "s3".toUTF8.data.toList ∧
    ((SessionEvent.NewContainer "web1" defaultDaemon.lxcpath ∈ out.session ∧
        SessionEvent.PtyOpen ∈ out.session) ↔ env.read = ReadResult.data "s3".toUTF8.data.toList) ∧
    out.body = "0.0.0.0:40123" :=
  ⟨by decide,
   (serveAttach_checks_secret defaultDaemon "0.0.0.0:40123"
      [("name", "web1"), ("command", "/bin/sh"), ("secret", "s3")]
      ⟨true, .data [0x73, 0x33], true, true⟩ (by decide) (by decide) (by decide) rfl).1,
   (serveAttach_checks_secret defaultDaemon "0.0.0.0:40123"
      [("name", "web1"), ("command", "/bin/sh"), ("secret", "s3")]
      ⟨true, .data [0x73, 0x33], true, true⟩ (by decide) (by decide) (by decide) rfl).2.2.1⟩

/-- The method `Client.Ping` sends exactly one request, to `/ping`. -/
theorem Ping_sent (c : Client) (net : Net) (hist : List Request) :
    (c.Ping net hist).2 = hist ++ [⟨c.transport, c.baseURL, "/ping", []⟩] := by
  unfold Client.Ping Client.getstr
  dsimp only
  cases hn : net hist ⟨c.transport, c.baseURL, "/ping", []⟩ with
  | error e => rfl
  | ok data => by_cases h : data = "pong" <;> simp [h]

/-- The function `NewClient` sends nothing, or the ping of the client it
resolved. -/
theorem NewClient_sent (config : Config) (raw : String) (net : Net) (hist : List Request) :
    (NewClient config raw net hist).2 = hist ∨
    ∃ c, resolveRemote config (splitRef config raw).1 = .ok c ∧
      (NewClient config raw net hist).2 = hist ++ [⟨c.transport, c.baseURL, "/ping", []⟩] := by
  unfold NewClient
  dsimp only
  cases hres : resolveRemote config (splitRef config raw).1 with
  | error e => exact Or.inl rfl
  | ok c =>
    refine Or.inr ⟨c, rfl, ?_⟩
    have hp := Ping_sent c net hist
    rcases hping : c.Ping net hist with ⟨_ | e, h⟩ <;> rw [hping] at hp <;>
      simp only [hping] <;> simpa using hp

/-- Every request `NewClient` adds to the history is a ping. -/
theorem NewClient_sends_pings (config : Config) (raw : String) (net : Net)
    (hist : List Request) :
    ∀ r ∈ (NewClient config raw net hist).2, r ∈ hist ∨ r.base = "/ping" := by
  intro r hr
  rcases NewClient_sent config raw net hist with h | ⟨c, _, h⟩
  · rw [h] at hr; exact Or.inl hr
  · rw [h] at hr
    rcases List.mem_append.mp hr with h1 | h1
    · exact Or.inl h1
    · right
      rw [List.mem_singleton.mp h1]

/-- A client that `NewClient` returns for a local remote name has no `Remote`. -/
theorem NewClient_local_Remote (config : Config) (raw : String) (net : Net)
    (hist h : List Request) (cl : Client) (name : String)
    (hloc : (splitRef config raw).1 = "" ∨ (splitRef config raw).1 = "local")
    (hok : NewClient config raw net hist = (.ok (cl, name), h)) : cl.Remote = none := by
  unfold NewClient at hok
  dsimp only at hok
  have hres : resolveRemote config (splitRef config raw).1
      = .ok ⟨config, none, .unixSocket, "http://unix.socket"⟩ := by
    simp [resolveRemote, hloc]
  simp only [hres] at hok
  split at hok
  · simp at hok
  · simp at hok
    rw [← hok.1.1]

/-! ## Preconditions of a migration -/

/-- C7: when the remote name of the source or of the target reference is empty
or `local`, `moveCmd.run` returns an error and every request it has sent is a
ping of `NewClient`: no checkpoint, sendContainer or restore request. -/
theorem run_rejects_local (c : moveCmd) (config : Config) (net : Net)
    (source target : String) (rest : List String)
    (hloc : ((splitRef config source).1 = "" ∨ (splitRef config source).1 = "local") ∨
            ((splitRef config target).1 = "" ∨ (splitRef config target).1 = "local")) :
    (c.run (.ok config) net (source :: target :: rest)).err ≠ none ∧
    ∀ r ∈ (c.run (.ok config) net (source :: target :: rest)).sent, r.base = "/ping" := by
  have hp1 := NewClient_sends_pings config source net []
  rcases hN1 : NewClient config source net [] with ⟨_ | ⟨sourced, name⟩, h1⟩
  · simp only [moveCmd.run, hN1]
    rw [hN1] at hp1
    exact ⟨by simp, fun r hr => by simpa using hp1 r hr⟩
  · have hp2 := NewClient_sends_pings config target net h1
    rw [hN1] at hp1
    have hall1 : ∀ r ∈ h1, r.base = "/ping" := fun r hr => by simpa using hp1 r hr
    rcases hN2 : NewClient config target net h1 with ⟨_ | ⟨targetd, tname⟩, h2⟩
    · simp only [moveCmd.run, hN1, hN2]
      rw [hN2] at hp2
      refine ⟨by simp, fun r hr => ?_⟩
      rcases hp2 r hr with h | h
      · exact hall1 r h
      · exact h
    · rw [hN2] at hp2
      have hall2 : ∀ r ∈ h2, r.base = "/ping" := fun r hr => by
        rcases hp2 r hr with h | h
        · exact hall1 r h
        · exact h
      have hnone : sourced.Remote = none ∨ targetd.Remote = none := by
        rcases hloc with h | h
        · exact Or.inl (NewClient_local_Remote config source net [] h1 sourced name h hN1)
        · exact Or.inr (NewClient_local_Remote config target net h1 h2 targetd tname h hN2)
      simp only [moveCmd.run, hN1, hN2]
      rcases hnone with h | h
      · rw [h]; exact ⟨by simp, hall2⟩
      · rw [h]
        cases sourced.Remote <;> exact ⟨by simp, hall2⟩

/-- Witness for C7: the source reference `local:web1`. -/
theorem run_rejects_local_witness :
    (splitRef twoRemotes "local:web1").1 = "local" ∧
    (moveCmd.run moveCmd.flags (.ok twoRemotes) (scriptedNet "0" "send successful!")
        ["local:web1", "dst:web1"]).err ≠ none ∧
    ∀ r ∈ (moveCmd.run moveCmd.flags (.ok twoRemotes) (scriptedNet "0" "send successful!")
        ["local:web1", "dst:web1"]).sent, r.base = "/ping" :=
  ⟨by decide,
   run_rejects_local moveCmd.flags twoRemotes (scriptedNet "0" "send successful!")
     "local:web1" "dst:web1" [] (Or.inl (Or.inr (by decide)))⟩

/-- Without the separator there is nothing to cut. -/
theorem cutFirst_absent (sep : Char) (l : List Char) (h : sep ∉ l) : cutFirst sep l = none := by
  induction l with
  | nil => rfl
  | cons c cs ih =>
    have hc : c ≠ sep := fun e => h (by simp [e])
    have hcs : sep ∉ cs := fun e => h (by simp [e])
    simp [cutFirst, hc, ih hcs]

/-- The cut is made at the first separator. -/
theorem cutFirst_first (sep : Char) (a b : List Char) (h : sep ∉ a) :
    cutFirst sep (a ++ sep :: b) = some (a, b) := by
  induction a with
  | nil => simp [cutFirst]
  | cons c cs ih =>
    have hc : c ≠ sep := fun e => h (by simp [e])
    have hcs : sep ∉ cs := fun e => h (by simp [e])
    simp [cutFirst, hc, ih hcs]

/-! ## Resolution of a reference -/

/-- C10 (amended): `NewClient` splits the reference at the first `:` only, and
a reference without `:` gets the default remote and is the container name as a
whole; when the remote name is neither empty nor `local` and is a key of the
remotes table, the ping goes to `http://` followed by that remote's address,
and once it is answered with `pong` the client has that base URL and the
container name is the text after the first `:`. -/
theorem NewClient_reference (config : Config) (net : Net) (hist : List Request) :
    (∀ r c : String, ':' ∉ r.data → splitRef config (r ++ ":" ++ c) = (r, c)) ∧
    (∀ raw : String, ':' ∉ raw.data → splitRef config raw = (config.DefaultRemote, raw)) ∧
    (∀ (raw : String) (rc : RemoteConfig),
      (splitRef config raw).1 ≠ "" → (splitRef config raw).1 ≠ "local" →
      config.remote (splitRef config raw).1 = some rc →
      (NewClient config raw net hist).2 = hist ++ [⟨.tcp, "http://" ++ rc.Addr, "/ping", []⟩] ∧
      (net hist ⟨.tcp, "http://" ++ rc.Addr, "/ping", []⟩ = .ok "pong" →
        (NewClient config raw net hist).1
          = .ok (⟨config, some rc, .tcp, "http://" ++ rc.Addr⟩, (splitRef config raw).2))) := by
  refine ⟨fun r c h => ?_, fun raw h => ?_, fun raw rc h1 h2 h3 => ?_⟩
  · have hd : (r ++ ":" ++ c).data = r.data ++ ':' :: c.data := by
      simp [String.data_append]
    simp [splitRef, SplitN2, hd, cutFirst_first ':' r.data c.data h]
  · simp [splitRef, SplitN2, cutFirst_absent ':' raw.data h]
  · have hres : resolveRemote config (splitRef config raw).1
        = .ok ⟨config, some rc, .tcp, "http://" ++ rc.Addr⟩ := by
      simp [resolveRemote, h1, h2, h3]
    unfold NewClient
    dsimp only
    simp only [hres, Client.Ping, Client.getstr]
    constructor
    · cases hn : net hist ⟨.tcp, "http://" ++ rc.Addr, "/ping", []⟩ with
      | error e => rfl
      | ok data => by_cases hd : data = "pong" <;> simp [hd]
    · intro hn
      simp [hn]


/-- Counterexample for C10: with `local` as a key of the remotes table, the
reference `local:web1` gives a client of the unix socket, not of the address
stored under that key. -/
theorem NewClient_local_key_uses_socket :
    (splitRef localNamed "local:web1").1 = "local" ∧
    localNamed.remote "local" = some ⟨"10.0.0.5:8443"⟩ ∧
    (NewClient localNamed "local:web1" (scriptedNet "0" "send successful!") []).1.map
        (fun p => (p.1.baseURL, p.1.Remote, p.2))
      = .ok ("http://unix.socket", none, "web1") :=
  ⟨by decide, by decide, rfl⟩

/-- Witness for C10: `myremote:web1` and `web1` with `myremote` at
`10.0.0.5:8443`. -/
theorem NewClient_reference_witness :
    splitRef oneRemote "myremote:web1" = ("myremote", "web1") ∧
    splitRef oneRemote "web1" = ("myremote", "web1") ∧
    (NewClient oneRemote "myremote:web1" (scriptedNet "0" "send successful!") []).1
      = .ok (⟨oneRemote, some ⟨"10.0.0.5:8443"⟩, .tcp, "http://10.0.0.5:8443"⟩, "web1") :=
  ⟨(NewClient_reference oneRemote (scriptedNet "0" "send successful!") []).1
      "myremote" "web1" (by decide),
   (NewClient_reference oneRemote (scriptedNet "0" "send successful!") []).2.1
      "web1" (by decide),
   ((NewClient_reference oneRemote (scriptedNet "0" "send successful!") []).2.2
      "myremote:web1" ⟨"10.0.0.5:8443"⟩ (by decide) (by decide) (by decide)).2 rfl⟩


/-! ## The checkpoint response in the orchestration -/

/-- Counterexample for C8: the body `-1` is not the decimal representation of a
non-negative integer, yet `moveCmd.run` does not return it as an error and goes
on to send the sendContainer and restore requests. -/
theorem run_accepts_signed_body :
    isDecimalNat "-1" = false ∧
    (let res := moveCmd.run moveCmd.flags (.ok twoRemotes) (scriptedNet "-1" "send successful!")
        ["src:web1", "dst:web1"]
     res.err ≠ some (.message "-1") ∧
     res.sent.map Request.base
       = ["/ping", "/ping", "/checkpoint", "sendContainer", "/checkpoint"]) := by
  decide

/-- The method `Client.getstr` appends its request to the history. -/
theorem getstr_sent (c : Client) (net : Net) (hist : List Request) (base : String)
    (args : Form) : (c.getstr net hist base args).2 = hist ++ [⟨c.transport, c.baseURL, base, args⟩] :=
  rfl

/-- C8 (amended): once both clients are network clients and the checkpoint
request is answered with body `s`, `moveCmd.run` goes on to the transfer with
id `n` exactly when `strconv.Atoi` accepts `s` with value `n` (a sign is
allowed, so `n` may be negative); when `Atoi` rejects `s` it returns the error
whose message is `s`, and all it has sent are the pings and the checkpoint
request. -/
theorem run_checkpoint_body (c : moveCmd) (config : Config) (net : Net)
    (source target : String) (rest : List String)
    (sourced targetd : Client) (name tname : String) (h1 h2 : List Request)
    (sr tr : RemoteConfig) (s : String)
    (hsrc : NewClient config source net [] = (.ok (sourced, name), h1))
    (htgt : NewClient config target net h1 = (.ok (targetd, tname), h2))
    (hsr : sourced.Remote = some sr) (htr : targetd.Remote = some tr)
    (hck : (sourced.Checkpoint net h2 name c.stop c.verbose).1 = .ok s) :
    let res := c.run (.ok config) net (source :: target :: rest)
    let h3 := (sourced.Checkpoint net h2 name c.stop c.verbose).2
    (∀ n, Atoi s = some n → (sourced.SendContainer net h3 tr name n).2 <+: res.sent) ∧
    (Atoi s = none → res.err = some (.message s) ∧ res.sent = h3 ∧
      ∀ r ∈ res.sent, r.base = "/ping" ∨
        some r = lastSent (sourced.Checkpoint net h2 name c.stop c.verbose)) := by
  intro res h3
  have hp1 := NewClient_sends_pings config source net []
  have hp2 := NewClient_sends_pings config target net h1
  rw [hsrc] at hp1
  rw [htgt] at hp2
  have hall2 : ∀ r ∈ h2, r.base = "/ping" := fun r hr => by
    rcases hp2 r hr with h | h
    · simpa using hp1 r h
    · exact h
  rcases hC : sourced.Checkpoint net h2 name c.stop c.verbose with ⟨ck, hist3⟩
  have hh3 : h3 = hist3 := by simp [h3, hC]
  have hck2 : ck = .ok s := by simpa [hC] using hck
  subst hck2
  have hlast : hist3 = h2 ++ [⟨sourced.transport, sourced.baseURL, "/checkpoint",
      ((sourced.Checkpoint net h2 name c.stop c.verbose).2.getLast?.map Request.args).getD []⟩] := by
    have := congrArg Prod.snd hC
    simp only [Client.Checkpoint, getstr_sent] at this ⊢
    simp [← this]
  constructor
  · intro n hn
    rw [hh3]
    simp only [res, moveCmd.run, hsrc, htgt, hsr, htr, hC, hn]
    rcases hS : sourced.SendContainer net hist3 tr name n with ⟨_ | sendResult, h4⟩
    · simp
    · simp only []
      rcases hR : targetd.Restore net h4 name n c.verbose with ⟨_ | restoreResult, h5⟩
      all_goals
        have h45 := congrArg Prod.snd hR
        simp only [Client.Restore, getstr_sent] at h45
        simp [← h45]
  · intro hn
    have hres : res = ⟨some (.message s), hist3, []⟩ := by
      simp only [res, moveCmd.run, hsrc, htgt, hsr, htr, hC, hn]
    rw [hres, hh3]
    refine ⟨rfl, rfl, fun r hr => ?_⟩
    simp only at hr
    rw [hlast] at hr
    rcases List.mem_append.mp hr with h | h
    · exact Or.inl (hall2 r h)
    · right
      rw [List.mem_singleton.mp h, lastSent, hC]
      simp only
      rw [hlast]
      simp

/-- Witness for C8: the body `-7` between the remotes `src` and `dst`. -/
theorem run_checkpoint_body_witness :
    Atoi "-7" = some (-7) ∧
    (srcClient.SendContainer (scriptedNet "-7" "send successful!")
        (srcClient.Checkpoint (scriptedNet "-7" "send successful!")
          [⟨.tcp, "http://10.0.0.1:8443", "/ping", []⟩, ⟨.tcp, "http://10.0.0.2:8443", "/ping", []⟩]
          "web1" true false).2
        ⟨"10.0.0.2:8443"⟩ "web1" (-7)).2
      <+: (moveCmd.run moveCmd.flags (.ok twoRemotes) (scriptedNet "-7" "send successful!")
            ["src:web1", "dst:web1"]).sent :=
  ⟨by decide,
   (run_checkpoint_body moveCmd.flags twoRemotes (scriptedNet "-7" "send successful!")
      "src:web1" "dst:web1" [] srcClient dstClient "web1" "web1"
      [⟨.tcp, "http://10.0.0.1:8443", "/ping", []⟩]
      [⟨.tcp, "http://10.0.0.1:8443", "/ping", []⟩, ⟨.tcp, "http://10.0.0.2:8443", "/ping", []⟩]
      ⟨"10.0.0.1:8443"⟩ ⟨"10.0.0.2:8443"⟩ "-7" rfl rfl rfl rfl rfl).1 (-7) (by decide)⟩

/-! ## Unknown remotes -/

/-- C11: when the remote name of a reference is neither empty, nor `local`,
nor a key of the remotes table, `NewClient` returns the "unknown remote name"
error and no client, and the history of requests is unchanged: no ping and no
other request is sent. -/
theorem NewClient_unknown_remote (config : Config) (raw : String) (net : Net)
    (hist : List Request)
    (hempty : (splitRef config raw).1 ≠ "") (hlocal : (splitRef config raw).1 ≠ "local")
    (hkey : config.remote (splitRef config raw).1 = none) :
    NewClient config raw net hist = (.error (.unknownRemote config.DefaultRemote), hist) := by
  have hres : resolveRemote config (splitRef config raw).1
      = .error (.unknownRemote config.DefaultRemote) := by
    simp [resolveRemote, hempty, hlocal, hkey]
  unfold NewClient
  dsimp only
  rw [hres]

/-- Witness for C11: the reference `other:web1` with remotes `src` and `dst`. -/
theorem NewClient_unknown_remote_witness :
    (splitRef twoRemotes "other:web1").1 = "other" ∧
    NewClient twoRemotes "other:web1" (scriptedNet "0" "send successful!") []
      = (.error (.unknownRemote ""), []) :=
  ⟨by decide,
   NewClient_unknown_remote twoRemotes "other:web1" (scriptedNet "0" "send successful!") []
     (by decide) (by decide) (by decide)⟩

/-- The allocation loop of `serveCheckpoint` returns id 0 for every filesystem. -/
theorem scanIds_first (d : Daemon) (fs : FS) (name : String) :
    scanIds d fs name 1000 0 "" (-1) = (makeCheckpointPath d name (stringOfInt 0), 0) :=
  rfl

/-- A cleaned path is never empty. -/
theorem Clean_nonempty (p : String) : Clean p ≠ "" := by
  unfold Clean
  split
  · decide
  · dsimp only
    split
    · intro h
      have := congrArg String.length h
      simp [String.length_append] at this
      exact absurd this.1 (by decide)
    · split
      · decide
      · assumption

/-- A checkpoint path of the default daemon is never empty. -/
theorem makeCheckpointPath_nonempty (name id : String) :
    makeCheckpointPath defaultDaemon name id ≠ "" := by
  simp only [makeCheckpointPath, varPath, defaultDaemon, filepathJoin]
  simp only [if_true, List.dropWhile]
  exact Clean_nonempty _

/-! ## Exhaustion of the checkpoint ids -/

/-- C12 (defect in the code): `serveCheckpoint` never answers
`Too many checkpoints?`: its loop stops at id 0 for every filesystem (the same
slip as in C1).  With the directories of all ids 0..999 present for `web1`, it
calls `MkdirAll` on the directory of id 0, invokes the runtime checkpoint
there and answers `string(0)`. -/
theorem serveCheckpoint_never_exhausted :
    (∀ (d : Daemon) (rt : Runtime) (fs : FS) (form : Form),
      (serveCheckpoint d rt fs form).body ≠ "Too many checkpoints?") ∧
    (∀ i : Nat, i < 1000 →
      fullTree.Stat (makeCheckpointPath defaultDaemon "web1" (stringOfInt i)) = .isDir) ∧
    (serveCheckpoint defaultDaemon allSucceed fullTree [("name", "web1")]).body = "\x00" ∧
    (serveCheckpoint defaultDaemon allSucceed fullTree [("name", "web1")]).effects
      = [Effect.NewContainer "web1" "/var/lib/flex/lxc",
         Effect.MkdirAll "/var/lib/flex/checkpoints/web1",
         Effect.MkdirAll "/var/lib/flex/checkpoints/web1/\x00",
         Effect.Checkpoint "web1" "/var/lib/flex/checkpoints/web1/\x00" true true] := by
  refine ⟨fun d rt fs form => ?_, ?_, ?_⟩
  · unfold serveCheckpoint
    simp only [scanIds_first]
    split
    · dsimp only; decide
    · split
      · dsimp only; decide
      · split
        · dsimp only; decide
        · split
          · rename_i h; exact absurd h (by decide)
          · split
            · dsimp only; decide
            · split
              · dsimp only; decide
              · dsimp only; decide
  · intro i hi
    have hmem : makeCheckpointPath defaultDaemon "web1" (stringOfInt i) ∈ fullTree.dirs := by
      simp only [fullTree, List.mem_map, List.mem_range]
      exact ⟨i, hi, rfl⟩
    simp [FS.Stat, makeCheckpointPath_nonempty, hmem]
  · decide

/-- The only parameter that can be missing from `["name"]` is `name`. -/
theorem firstMissing_name (form : Form) (f : String)
    (h : firstMissing ["name"] form = some f) : f = "name" ∧ FormValue form "name" = "" := by
  simp only [firstMissing, List.find?] at h
  by_cases h1 : FormValue form "name" = ""
  · simp [h1] at h
    exact ⟨h.symm, h1⟩
  · simp [h1] at h

/-! ## Missing request parameters -/

/-- C13 (amended): create (name, distro, release, arch), attach (name, command,
secret), the by-name handlers, checkpoint and restore (name) answer
`failed parsing <field>` for the first missing field and do nothing else;
sendContainer does nothing else either but answers `no name?` for a missing
name and `error parsing remote` for a missing remote. -/
theorem handlers_refuse_missing_parameter (d : Daemon) (rt : Runtime) (lxc : Lxc) (fs : FS)
    (form : Form) :
    (∀ (id_map : Option idmap) (f : String),
      firstMissing ["name", "distro", "release", "arch"] form = some f →
      (serveCreate d rt lxc id_map fs form).refuses fs ("failed parsing " ++ f)) ∧
    (∀ (listen : Option String) (env : AttachEnv) (f : String),
      firstMissing ["name", "command", "secret"] form = some f →
      (serveAttach d listen form env).body = "failed parsing " ++ f ∧
      (serveAttach d listen form env).session = []) ∧
    (∀ function f : String, firstMissing ["name"] form = some f →
      (buildByNameServe function d rt lxc fs form).refuses fs ("failed parsing " ++ f)) ∧
    (∀ f : String, firstMissing ["name"] form = some f →
      (serveCheckpoint d rt fs form).refuses fs ("failed parsing " ++ f)) ∧
    (∀ f : String, firstMissing ["name"] form = some f →
      (serveRestore d rt fs form).refuses fs ("failed parsing " ++ f)) ∧
    (FormValue form "name" = "" → (serveSendContainer d rt fs form).refuses fs "no name?") ∧
    (FormValue form "name" ≠ "" → FormValue form "remote" = "" →
      (serveSendContainer d rt fs form).refuses fs "error parsing remote") := by
  refine ⟨?_, ?_, ?_, ?_, ?_, ?_, ?_⟩
  · intro id_map f h
    simp only [firstMissing, List.find?] at h
    by_cases h1 : FormValue form "name" = ""
    · simp [h1] at h
      subst h
      simp [serveCreate, h1, Response.refuses]
    · by_cases h2 : FormValue form "distro" = ""
      · simp [h1, h2] at h
        subst h
        simp [serveCreate, h1, h2, Response.refuses]
      · by_cases h3 : FormValue form "release" = ""
        · simp [h1, h2, h3] at h
          subst h
          simp [serveCreate, h1, h2, h3, Response.refuses]
        · by_cases h4 : FormValue form "arch" = ""
          · simp [h1, h2, h3, h4] at h
            subst h
            simp [serveCreate, h1, h2, h3, h4, Response.refuses]
          · simp [h1, h2, h3, h4] at h
  · intro listen env f h
    simp only [firstMissing, List.find?] at h
    by_cases h1 : FormValue form "name" = ""
    · simp [h1] at h
      subst h
      simp [serveAttach, h1]
    · by_cases h2 : FormValue form "command" = ""
      · simp [h1, h2] at h
        subst h
        simp [serveAttach, h1, h2]
      · by_cases h3 : FormValue form "secret" = ""
        · simp [h1, h2, h3] at h
          subst h
          simp [serveAttach, h1, h2, h3]
        · simp [h1, h2, h3] at h
  · intro function f h
    obtain ⟨hf, h1⟩ := firstMissing_name form f h
    subst hf
    simp [buildByNameServe, h1, Response.refuses]
  · intro f h
    obtain ⟨hf, h1⟩ := firstMissing_name form f h
    subst hf
    simp [serveCheckpoint, h1, Response.refuses]
  · intro f h
    obtain ⟨hf, h1⟩ := firstMissing_name form f h
    subst hf
    simp [serveRestore, h1, Response.refuses]
  · intro h1
    simp [serveSendContainer, h1, Response.refuses]
  · intro h1 h2
    simp [serveSendContainer, h1, h2, Response.refuses]

/-- Witness for C13: a create request without `distro` and `arch`. -/
theorem handlers_refuse_missing_parameter_witness :
    firstMissing ["name", "distro", "release", "arch"] [("name", "web1"), ("release", "trusty")]
      = some "distro" ∧
    (serveCreate defaultDaemon allSucceed lxcSucceeds none ⟨[], []⟩
        [("name", "web1"), ("release", "trusty")]).refuses ⟨[], []⟩ ("failed parsing " ++ "distro") :=
  ⟨by decide,
   (handlers_refuse_missing_parameter defaultDaemon allSucceed lxcSucceeds ⟨[], []⟩
      [("name", "web1"), ("release", "trusty")]).1 none "distro" (by decide)⟩

/-- Counterexample for C13: sendContainer answers `no name?` and
`error parsing remote`, not `failed parsing <field>`; and restore without `id`
opens the container and restores from the checkpoint root of the container. -/
theorem sendContainer_restore_missing_parameter :
    firstMissing ["name", "remote"] [] = some "name" ∧
    (serveSendContainer defaultDaemon allSucceed ⟨[], []⟩ []).body = "no name?" ∧
    firstMissing ["name", "remote"] [("name", "web1")] = some "remote" ∧
    (serveSendContainer defaultDaemon allSucceed ⟨[], []⟩ [("name", "web1")]).body
      = "error parsing remote" ∧
    firstMissing ["name", "id"] [("name", "web1")] = some "id" ∧
    (serveRestore defaultDaemon allSucceed ⟨["/var/lib/flex/checkpoints/web1"], []⟩
        [("name", "web1")]).body = "restore success!" ∧
    (serveRestore defaultDaemon allSucceed ⟨["/var/lib/flex/checkpoints/web1"], []⟩
        [("name", "web1")]).effects
      = [Effect.NewContainer "web1" "/var/lib/flex/lxc",
         Effect.Restore "web1" "/var/lib/flex/checkpoints/web1" true] := by
  decide

/-- A reference with a separator is cut at the first one. -/
theorem splitRef_cut (config : Config) (r c : String) (h : ':' ∉ r.data) :
    splitRef config (r ++ ":" ++ c) = (r, c) := by
  have hd : (r ++ ":" ++ c).data = r.data ++ ':' :: c.data := by
    simp [String.data_append]
  simp [splitRef, SplitN2, hd, cutFirst_first ':' r.data c.data h]

/-- A reference without separator is a container name of the default remote. -/
theorem splitRef_whole (config : Config) (raw : String) (h : ':' ∉ raw.data) :
    splitRef config raw = (config.DefaultRemote, raw) := by
  simp [splitRef, SplitN2, cutFirst_absent ':' raw.data h]

/-! ## The container name of a reference -/

/-- C14 (amended): the container name `NewClient` returns is the text after the
first `:` of the reference, and the whole reference when it has no `:`; it is
non-empty exactly when that text is. -/
theorem NewClient_container_name (config : Config) (raw : String) (net : Net)
    (hist h : List Request) (cl : Client) (name : String)
    (hok : NewClient config raw net hist = (.ok (cl, name), h)) :
    name = (splitRef config raw).2 ∧
    (∀ r c : String, ':' ∉ r.data → raw = r ++ ":" ++ c → name = c) ∧
    (':' ∉ raw.data → name = raw) := by
  have hname : name = (splitRef config raw).2 := by
    unfold NewClient at hok
    dsimp only at hok
    cases hres : resolveRemote config (splitRef config raw).1 with
    | error e => simp [hres] at hok
    | ok c0 =>
      simp only [hres] at hok
      rcases hping : c0.Ping net hist with ⟨_ | e, h0⟩
      · simp only [hping] at hok
        simp at hok
        exact hok.1.2.symm
      · simp [hping] at hok
  refine ⟨hname, fun r c hr hraw => ?_, fun hraw => ?_⟩
  · rw [hname, hraw, splitRef_cut config r c hr]
  · rw [hname, splitRef_whole config raw hraw]

/-- Witness for C14: the reference `myremote:web1`. -/
theorem NewClient_container_name_witness :
    NewClient oneRemote "myremote:web1" (scriptedNet "0" "send successful!") []
      = (.ok (⟨oneRemote, some ⟨"10.0.0.5:8443"⟩, .tcp, "http://10.0.0.5:8443"⟩, "web1"),
          [⟨.tcp, "http://10.0.0.5:8443", "/ping", []⟩]) ∧
    "web1" = (splitRef oneRemote "myremote:web1").2 :=
  ⟨rfl,
   (NewClient_container_name oneRemote "myremote:web1" (scriptedNet "0" "send successful!") []
      [⟨.tcp, "http://10.0.0.5:8443", "/ping", []⟩]
      ⟨oneRemote, some ⟨"10.0.0.5:8443"⟩, .tcp, "http://10.0.0.5:8443"⟩ "web1" rfl).1⟩

/-- Counterexample for C14: for the references `myremote:` and the empty
reference `NewClient` succeeds and returns the empty container name. -/
theorem NewClient_returns_empty_name :
    (NewClient oneRemote "myremote:" (scriptedNet "0" "send successful!") []).1
      = .ok (⟨oneRemote, some ⟨"10.0.0.5:8443"⟩, .tcp, "http://10.0.0.5:8443"⟩, "") ∧
    (NewClient oneRemote "" (scriptedNet "0" "send successful!") []).1
      = .ok (⟨oneRemote, some ⟨"10.0.0.5:8443"⟩, .tcp, "http://10.0.0.5:8443"⟩, "") :=
  ⟨rfl, rfl⟩

end Flex
